import Mathlib

/-!
Verification of the prompt-canvas gateway/proxy layer and client adapter.

The development shallowly embeds:
* the EdgeOne edge-function gateway (`onRequest` and its route handlers
  `handleClassify`, `handleGenerateImage`, `handleChat`, `handleVideoPrompt`,
  `handleHealth`) from `edge-functions/api/gemini/[[default]].js`;
* the client adapter (`classifyPrompt`, `generateImage`,
  `convertToVideoPrompt`, `sendChatMessage`, `getApiKeyInfo`) from
  `services/geminiService.ts`, in both its direct-gateway mode
  (`USING_GATEWAY` true) and its same-origin proxy mode;
* `generateId` from `services/idService.ts`.

Modelling conventions:
* JavaScript strings are modelled as `List Char` (`JStr`); `s.slice(0, n)`
  is `List.take n`, `s.substring(s.length - 4)` is `List.drop (s.length - 4)`
  (JavaScript clamps a negative start index to 0, which matches `Nat`
  subtraction truncation).
* A possibly-absent (`undefined`) field is an `Option`; the JavaScript
  falsiness test `!s` on an optional string is `isFalsy` (absent or empty).
* The single outbound call a handler may make is recorded in the `calls`
  field of its result; the upstream outcome (the resolved JSON on a 2xx
  response, or the message of the error thrown by `callGeminiAPI` /
  `callGenerateContent` on a non-2xx status or transport failure) is
  supplied as an oracle of type `Except JStr GenResult`.
* `JSON.parse` applied to the classify response text is supplied as an
  oracle `ParseOracle`; `none` covers both a parse exception and a parsed
  value on which the subsequent property accesses throw.
-/

/-- JavaScript strings, modelled as lists of characters. -/
abbrev JStr := List Char

/-- Characters that the JavaScript regexp metacharacter dot does not match
(line terminators): LF, CR, LINE SEPARATOR, PARAGRAPH SEPARATOR. -/
def isLineTerm (c : Char) : Bool :=
  c = '\n' || c = '\r' || c = ' ' || c = ' '

/-- The character class matched by the JavaScript regexp escape for
whitespace, used by the health route's whitespace test. -/
def jsWhitespace (c : Char) : Bool :=
  c = ' ' || c = '\t' || c = '\n' || c = '\r' || c = '\x0b' || c = '\x0c' ||
  c = ' ' || c = ' ' ||
  (' ' ≤ c && c ≤ ' ') ||
  c = ' ' || c = ' ' || c = ' ' || c = ' ' ||
  c = '　' || c = '﻿'

/-- The literal separator of the data-URI regexp used by the gateway and the
client adapter. -/
def sepB64 : JStr := (";base64,").data

/-- The literal scheme marker of a data URI. -/
def dataPfx : JStr := ("data:").data

/-- A group matched by a greedy dot-plus: non-empty and free of line
terminators. -/
def grpOk (l : JStr) : Bool :=
  !l.isEmpty && l.all (fun c => !isLineTerm c)

/-- Attempt to read the fixed `;base64,` separator at the head of `l`, with
the whole remainder as the second captured group. -/
def sepHere (l : JStr) : Option (JStr × JStr) :=
  if l.take 8 = sepB64 && grpOk (l.drop 8) then some ([], l.drop 8)
  else none

/-- Matching of the tail of the data-URI regexp: splits `l` as
`g1 ++ sepB64 ++ g2` where both groups are line-terminator free, `g2` is
non-empty, and — mirroring the greedy first group of the source regexp —
`g1` is as long as possible (`g1` may be empty here; the caller rejects an
empty first group). -/
def matchTail : JStr → Option (JStr × JStr)
  | [] => none
  | c :: rs =>
    if isLineTerm c then sepHere (c :: rs)
    else
      match matchTail rs with
      | some p => some (c :: p.1, p.2)
      | none => sepHere (c :: rs)

/-- Embedding of the JavaScript match
`s.match(/^data:(.+);base64,(.+)$/)` used for reference images and chat
attachments: returns the two captured groups on success. -/
def matchDataUri (s : JStr) : Option (JStr × JStr) :=
  if s.take 5 = dataPfx then
    match matchTail (s.drop 5) with
    | some (g1, g2) => if g1.isEmpty then none else some (g1, g2)
    | none => none
  else none

/-- The property expressed by the data-URI pattern: the string decomposes as
scheme marker, non-empty mime group, base64 marker, non-empty payload group,
with neither group containing a line terminator. -/
def IsDataUri (s : JStr) : Prop :=
  ∃ m d, s = dataPfx ++ m ++ sepB64 ++ d ∧ m ≠ [] ∧ d ≠ [] ∧
    (∀ c ∈ m, ¬isLineTerm c) ∧ (∀ c ∈ d, ¬isLineTerm c)

/-! ## Upstream API data model -/

/-- Inline media as sent to and received from the upstream API. -/
structure InlineData where
  mimeType : JStr
  data : JStr
deriving DecidableEq

/-- One element of a `parts` array: a text part or an inline-data part
(an absent field is `none`). -/
structure UPart where
  text : Option JStr := none
  inlineData : Option InlineData := none
deriving DecidableEq

/-- One outbound `contents` element: an optional role and a parts array. -/
structure UContent where
  role : Option JStr := none
  parts : List UPart
deriving DecidableEq

/-- The optional `generationConfig` of an outbound request. -/
structure GenCfg where
  responseMimeType : Option JStr := none
  responseModalities : Option (List JStr) := none
  maxOutputTokens : Option Nat := none
deriving DecidableEq

/-- An outbound upstream request: the model path segment and the JSON
body fields. -/
structure UpBody where
  model : JStr
  contents : List UContent
  generationConfig : Option GenCfg := none
deriving DecidableEq

/-- Upstream response `content` object (each level of the optional chain
`result.candidates?.[0]?.content?.parts?.[0]?.text` may be absent). -/
structure RContent where
  parts : Option (List UPart) := none
deriving DecidableEq

/-- Upstream response candidate. -/
structure RCand where
  content : Option RContent := none
deriving DecidableEq

/-- Upstream response JSON as consumed by the handlers. -/
structure GenResult where
  candidates : Option (List RCand) := none
deriving DecidableEq

/-- The upstream outcome oracle for the single outbound call a handler may
make: `ok` carries the resolved response JSON of a 2xx reply, `error`
carries the message of the exception thrown by the call helper on a non-2xx
status or transport failure. -/
abbrev Upstream := Except JStr GenResult

/-- The optional chain `result.candidates?.[0]?.content?.parts?.[0]?.text`
shared by the gateway handlers and the client's `extractCandidateText`. -/
def extractText (r : GenResult) : Option JStr :=
  ((((r.candidates.bind List.head?).bind RCand.content).bind
    RContent.parts).bind List.head?).bind UPart.text

/-- `result.candidates?.[0]?.content?.parts || []` followed by the loop
returning the first part carrying `inlineData`, as in image generation. -/
def firstInline (r : GenResult) : Option InlineData :=
  ((((r.candidates.bind List.head?).bind RCand.content).bind
    RContent.parts).getD []).findSome? UPart.inlineData

/-! ## Client-facing request and response model -/

/-- A chat attachment; the handlers only read its `data` field. -/
structure Attachment where
  data : JStr
deriving DecidableEq

/-- One entry of the chat `history` array. -/
structure HistEntry where
  role : JStr
  text : JStr
  attachments : Option (List Attachment) := none
deriving DecidableEq

/-- The parsed JSON body of a gateway request, with every field optional
(destructuring an untyped object yields `undefined` for absent fields).
`settings` is modelled by its serialized form: the handler only ever uses
`JSON.stringify(settings || \x7b\x7d)`. -/
structure ReqBody where
  input : Option JStr := none
  prompt : Option JStr := none
  referenceImage : Option JStr := none
  history : Option (List HistEntry) := none
  message : Option JStr := none
  attachments : Option (List Attachment) := none
  settings : Option JStr := none
deriving DecidableEq

/-- JavaScript falsiness of a possibly-absent string value. -/
def isFalsy : Option JStr → Bool
  | none => true
  | some s => s.isEmpty

/-- The response body shapes produced by the gateway routes. -/
inductive RespBody where
  | error (msg : JStr)
  | classify (type title : JStr) (tags : List JStr)
  | image (imageUrl : JStr)
  | chat (text : JStr)
  | video (videoPrompt : JStr)
  | health (status : JStr) (length : Nat) (preview : JStr)
      (hasWhitespace : Option Bool) (message : JStr)
  | empty
deriving DecidableEq

/-- A gateway HTTP response: status code and JSON body (`empty` models the
body-less 204 preflight reply). -/
structure GResponse where
  status : Nat
  body : RespBody
deriving DecidableEq

/-- A handler outcome: the response produced, plus the outbound upstream
calls that were attempted (at most one). -/
structure HandlerOut where
  resp : GResponse
  calls : List UpBody
deriving DecidableEq

/-- `errorResponse(message, status)` of the gateway. -/
def errorResponse (msg : JStr) (status : Nat := 500) : GResponse :=
  ⟨status, .error msg⟩

/-- The parsed value of the classify response text, as far as the handler
observes it: the `type` field when it is a string, the `title` field when
it is a string (with `none` covering absent or falsy), and the `tags`
field. `JSON.parse` failure — and a parsed value whose property access
throws — is the oracle returning `none`. -/
structure ParsedClassify where
  type : Option JStr := none
  title : Option JStr := none
  tags : Option (List JStr) := none
deriving DecidableEq

/-- The `JSON.parse` oracle for the classify response text. -/
abbrev ParseOracle := JStr → Option ParsedClassify

/-! ## Gateway route handlers -/

/-- Model path segment of the text model hardcoded by the gateway. -/
def textModel : JStr := ("gemini-3-pro-preview").data

/-- Model path segment of the image model hardcoded by the gateway. -/
def imageModel : JStr := ("gemini-3-pro-image-preview").data

/-- The gateway's classification prompt template (interpolating the user
input). -/
def classifyTpl (input : JStr) : JStr :=
  ("Analyze the following user prompt: \"").data ++ input ++ ("\".

  Your task is to classify this prompt into one of two types: IMAGE or TEXT.

  CRITICAL RULES:
  1. Set type to \"TEXT\" if:
     - The prompt is a system instruction, role definition (e.g., \"You are an expert...\", \"Act as a director...\", \"你是一位...\").
     - The prompt asks to *write* or *refine* a prompt (e.g., \"Write a prompt for Sora\", \"Create a JSON template\").
     - The prompt is conversational, a question, or a request for code/reasoning.

  2. Set type to \"IMAGE\" ONLY if:
     - The prompt is a direct visual description of a scene intended to be rendered immediately as a picture (e.g., \"A stunning photo of...\", \"Cyberpunk city street\", \"一只猫...\").

  Also provide a short title (max 5 words) and 3 relevant tags. If the input is Chinese, please provide the title and tags in Chinese.

  Respond in JSON format: \x7b\"type\": \"IMAGE\" or \"TEXT\", \"title\": \"...\", \"tags\": [\"...\", \"...\", \"...\"]\x7d").data

/-- The video-prompt rewrite template, identical in the gateway and the
client (interpolating the original prompt and the serialized settings). -/
def videoTpl (originalPrompt settingsJson : JStr) : JStr :=
  ("Rewrite the following image prompt into a highly detailed video generation prompt suitable for a model like Sora or Grok.
Original Prompt: \"").data ++ originalPrompt ++ ("\"

Apply these video settings: ").data ++ settingsJson ++ ("

Include specific keywords for camera movement, lighting, and motion. Output ONLY the raw prompt text.").data

/-- The per-attachment loop shared verbatim by the chat handler (history
and current message) and the client adapter: each attachment whose `data`
matches the data-URI pattern contributes one inline-data part; the others
are skipped. -/
def attachmentParts (atts : List Attachment) : List UPart :=
  atts.filterMap fun a =>
    (matchDataUri a.data).map fun md => { inlineData := some ⟨md.1, md.2⟩ }

/-- The reference-image block of the generate-image handler: a truthy
reference that matches the data-URI pattern contributes one inline-data
part. -/
def refImageParts (ref : Option JStr) : List UPart :=
  match ref with
  | none => []
  | some r =>
    if r.isEmpty then []
    else
      match matchDataUri r with
      | some md => [{ inlineData := some ⟨md.1, md.2⟩ }]
      | none => []

/-- The success path of the classify try-block, shared by the gateway
handler and the gateway-mode client: the parsed classification when the
upstream call succeeded, its first text part was truthy, and `JSON.parse`
succeeded; `none` otherwise (any of those failures lands in the catch
block). -/
def classifySuccess (up : Upstream) (parse : ParseOracle) :
    Option ParsedClassify :=
  match up with
  | .error _ => none
  | .ok r =>
    match extractText r with
    | none => none
    | some t => if t.isEmpty then none else parse t

/-- The classify fallback title: the first 15 characters of the input, with
an ellipsis appended exactly when the input is longer than 15 characters. -/
def fallbackTitle (input : JStr) : JStr :=
  input.take 15 ++ (if 15 < input.length then ("...").data else [])

/-- The classify fallback tag list (a single fixed placeholder tag). -/
def fallbackTags : List JStr := [("新提示词").data]

/-- `handleClassify` of the gateway. -/
def handleClassify (b : ReqBody) (up : Upstream) (parse : ParseOracle) :
    HandlerOut :=
  if isFalsy b.input then
    ⟨errorResponse ("Missing required field: input").data 400, []⟩
  else
    let input := b.input.getD []
    let call : UpBody :=
      ⟨textModel, [⟨none, [⟨some (classifyTpl input), none⟩]⟩],
        some { responseMimeType := some ("application/json").data }⟩
    match classifySuccess up parse with
    | some parsed =>
      ⟨⟨200, .classify
          (if parsed.type = some ("IMAGE").data then ("IMAGE").data
           else ("TEXT").data)
          (match parsed.title with
           | some t => if t.isEmpty then input.take 10 else t
           | none => input.take 10)
          (parsed.tags.getD [])⟩, [call]⟩
    | none =>
      ⟨⟨200, .classify ("TEXT").data (fallbackTitle input) fallbackTags⟩,
        [call]⟩

/-- `handleGenerateImage` of the gateway. -/
def handleGenerateImage (b : ReqBody) (up : Upstream) : HandlerOut :=
  if isFalsy b.prompt then
    ⟨errorResponse ("Missing required field: prompt").data 400, []⟩
  else
    let prompt := b.prompt.getD []
    let parts : List UPart :=
      ⟨some prompt, none⟩ :: refImageParts b.referenceImage
    let call : UpBody :=
      ⟨imageModel, [⟨none, parts⟩],
        some { responseModalities := some [("image").data, ("text").data] }⟩
    match up with
    | .error e =>
      ⟨errorResponse (("Image generation failed: ").data ++ e) 500, [call]⟩
    | .ok r =>
      match firstInline r with
      | some d =>
        ⟨⟨200, .image (dataPfx ++ d.mimeType ++ sepB64 ++ d.data)⟩, [call]⟩
      | none =>
        ⟨errorResponse
          (("Image generation failed: No image data returned from Gemini").data)
          500, [call]⟩

/-- The validation predicate of the chat route: both `message` falsy and
`attachments` absent or empty. -/
def chatInvalid (b : ReqBody) : Bool :=
  isFalsy b.message && (b.attachments.getD []).isEmpty

/-- The history-to-contents reshaping loop of the chat route. -/
def histTurn (h : HistEntry) : UContent :=
  ⟨some (if h.role = ("user").data then ("user").data else ("model").data),
    ⟨some h.text, none⟩ :: attachmentParts (h.attachments.getD [])⟩

/-- The final user turn of the chat route, carrying the new message and its
attachments. -/
def currentTurn (b : ReqBody) : UContent :=
  ⟨some ("user").data,
    ⟨some (b.message.getD []), none⟩ :: attachmentParts (b.attachments.getD [])⟩

/-- `handleChat` of the gateway. -/
def handleChat (b : ReqBody) (up : Upstream) : HandlerOut :=
  if chatInvalid b then
    ⟨errorResponse ("Missing required field: message or attachments").data 400,
      []⟩
  else
    let contents := (b.history.getD []).map histTurn ++ [currentTurn b]
    let call : UpBody := ⟨textModel, contents, none⟩
    match up with
    | .error e => ⟨errorResponse (("Chat failed: ").data ++ e) 500, [call]⟩
    | .ok r => ⟨⟨200, .chat ((extractText r).getD [])⟩, [call]⟩

/-- `handleVideoPrompt` of the gateway. -/
def handleVideoPrompt (b : ReqBody) (up : Upstream) : HandlerOut :=
  if isFalsy b.prompt then
    ⟨errorResponse ("Missing required field: prompt").data 400, []⟩
  else
    let originalPrompt := b.prompt.getD []
    let settingsJson := b.settings.getD ("\x7b\x7d").data
    let call : UpBody :=
      ⟨textModel, [⟨none, [⟨some (videoTpl originalPrompt settingsJson), none⟩]⟩],
        none⟩
    match up with
    | .error e =>
      ⟨errorResponse (("Video prompt conversion failed: ").data ++ e) 500,
        [call]⟩
    | .ok r =>
      let t := (extractText r).getD []
      ⟨⟨200, .video (if t.isEmpty then originalPrompt else t)⟩, [call]⟩

/-- `handleHealth` of the gateway: pure report on the configured credential,
always status 200. -/
def handleHealth (apiKey : Option JStr) : GResponse :=
  if isFalsy apiKey then
    ⟨200, .health ("missing").data 0 ("N/A").data none
      ("API Key is not configured").data⟩
  else
    let k := apiKey.getD []
    let isValidFormat := k.take 4 = ("AIza").data
    let hasWhitespace := k.any jsWhitespace
    ⟨200, .health
      (if isValidFormat ∧ ¬hasWhitespace then ("valid_format").data
       else ("invalid_format").data)
      k.length
      (k.take 4 ++ ("...").data ++ k.drop (k.length - 4))
      (some hasWhitespace)
      (if isValidFormat then ("API Key format looks valid").data
       else ("API Key format may be invalid").data)⟩

/-- The switch of `onRequest` dispatching a parsed request on path segment
and method. -/
def dispatch (method path : JStr) (b : ReqBody) (up : Upstream)
    (parse : ParseOracle) : HandlerOut :=
  if path = ("classify").data then
    if method ≠ ("POST").data then
      ⟨errorResponse ("Method not allowed").data 405, []⟩
    else handleClassify b up parse
  else if path = ("generate-image").data then
    if method ≠ ("POST").data then
      ⟨errorResponse ("Method not allowed").data 405, []⟩
    else handleGenerateImage b up
  else if path = ("chat").data then
    if method ≠ ("POST").data then
      ⟨errorResponse ("Method not allowed").data 405, []⟩
    else handleChat b up
  else if path = ("video-prompt").data then
    if method ≠ ("POST").data then
      ⟨errorResponse ("Method not allowed").data 405, []⟩
    else handleVideoPrompt b up
  else
    ⟨errorResponse (("Unknown route: /api/gemini/").data ++ path) 404, []⟩

/-- `onRequest` of the gateway: CORS preflight, health short-circuit,
credential check, body parsing (`none` models a body that is not valid
JSON), then dispatch on path segment and method. -/
def onRequest (method path : JStr) (apiKey : Option JStr)
    (rawBody : Option ReqBody) (up : Upstream) (parse : ParseOracle) :
    HandlerOut :=
  if method = ("OPTIONS").data then ⟨⟨204, .empty⟩, []⟩
  else if path = ("health").data ∧ method = ("GET").data then
    ⟨handleHealth apiKey, []⟩
  else if isFalsy apiKey then
    ⟨errorResponse ("API Key is not configured").data 500, []⟩
  else
    match (if method = ("POST").data then rawBody else some {}) with
    | none => ⟨errorResponse ("Invalid JSON body").data 400, []⟩
    | some b => dispatch method path b up parse

/-- The request body the proxy-mode client serializes for the classify
route. -/
def classifyBody (input : JStr) : ReqBody :=
  { input := some input }

/-- The request body of a generate-image request. -/
def imageBody (prompt : Option JStr) (ref : Option JStr) : ReqBody :=
  { prompt := prompt, referenceImage := ref }

/-- The request body the proxy-mode client serializes for the chat route. -/
def chatBody (hist : List HistEntry) (msg : Option JStr)
    (atts : Option (List Attachment)) : ReqBody :=
  { history := some hist, message := msg, attachments := atts }

/-- The request body the proxy-mode client serializes for the video-prompt
route. -/
def videoBody (p : JStr) (st : Option JStr) : ReqBody :=
  { prompt := some p, settings := st }

/-! ## Client adapter (`geminiService.ts`), both operating modes -/

/-- Modelled from the spec: the `PromptItem` discriminant of the shared
`types.ts` module (not part of the analysed sources), with alternatives
IMAGE, TEXT and VIDEO_PLAN. Only the mapping of upstream strings onto
IMAGE/TEXT matters here. -/
inductive PromptType where
  | IMAGE
  | TEXT
  | VIDEO_PLAN
deriving DecidableEq

/-- The normalized result of `classifyPrompt`. -/
structure ClientClassify where
  type : PromptType
  title : JStr
  tags : List JStr
deriving DecidableEq

/-- The classify fallback value of the client's catch blocks. -/
def clientClassifyFallback (input : JStr) : ClientClassify :=
  ⟨.TEXT, fallbackTitle input, fallbackTags⟩

/-- `classifyPrompt` in direct-gateway mode (`USING_GATEWAY` true): the
client itself calls the upstream API and maps the parsed classification;
any failure lands in the catch block and yields the fallback. The outbound
request it builds is not modelled: no property stated here observes it. -/
def classifyPrompt_gw (input : JStr) (up : Upstream) (parse : ParseOracle) :
    ClientClassify :=
  match classifySuccess up parse with
  | some parsed =>
    ⟨(if parsed.type = some ("IMAGE").data then .IMAGE else .TEXT),
      (match parsed.title with
       | some t => if t.isEmpty then input.take 10 else t
       | none => input.take 10),
      parsed.tags.getD []⟩
  | none => clientClassifyFallback input

/-- `errorData.error || defaultMessage` of the client's non-2xx branch:
the `error` field of the response body when truthy, the static message
otherwise. -/
def errOr (body : RespBody) (dflt : JStr) : JStr :=
  match body with
  | .error m => if m.isEmpty then dflt else m
  | _ => dflt

/-- A status code the fetch API reports as `response.ok`. -/
def respOk (status : Nat) : Prop := 200 ≤ status ∧ status < 300

instance : DecidablePred respOk := fun _ => by
  unfold respOk; infer_instance

/-- `classifyPrompt` in same-origin proxy mode: POST `/classify` to the
gateway, throw on a non-2xx reply, re-map the returned triple; the catch
block around the whole call yields the fallback. Reading the fields of an
unexpected 2xx body shape yields `undefined` values, hence TEXT, the
10-character title fallback, and an empty tag list. -/
def classifyPrompt_proxy (input : JStr) (up : Upstream)
    (parse : ParseOracle) : ClientClassify :=
  if respOk (handleClassify (classifyBody input) up parse).resp.status then
    match (handleClassify (classifyBody input) up parse).resp.body with
    | .classify t ti tg =>
      ⟨(if t = ("IMAGE").data then .IMAGE else .TEXT),
        (if ti.isEmpty then input.take 10 else ti), tg⟩
    | _ => ⟨.TEXT, input.take 10, []⟩
  else clientClassifyFallback input

/-- `generateImage` in direct-gateway mode; a thrown error is returned as
`Except.error` with the thrown message. -/
def generateImage_gw (prompt : JStr) (referenceImageBase64 : Option JStr)
    (up : Upstream) : Except JStr JStr :=
  match up with
  | .error e => .error e
  | .ok r =>
    match firstInline r with
    | some d => .ok (dataPfx ++ d.mimeType ++ sepB64 ++ d.data)
    | none => .error ("No image data returned from Gemini").data

/-- `generateImage` in same-origin proxy mode. On a 2xx reply the client
returns `result.imageUrl` (an unexpected body shape would yield the
JavaScript undefined value, modelled as the empty string; the gateway never
produces it). -/
def generateImage_proxy (prompt : JStr) (referenceImageBase64 : Option JStr)
    (up : Upstream) : Except JStr JStr :=
  if respOk (handleGenerateImage (imageBody (some prompt)
      referenceImageBase64) up).resp.status then
    match (handleGenerateImage (imageBody (some prompt)
        referenceImageBase64) up).resp.body with
    | .image u => .ok u
    | _ => .ok []
  else .error (errOr (handleGenerateImage (imageBody (some prompt)
    referenceImageBase64) up).resp.body ("Image generation failed").data)

/-- `convertToVideoPrompt` in direct-gateway mode. -/
def convertToVideoPrompt_gw (originalPrompt : JStr) (settings : Option JStr)
    (up : Upstream) : Except JStr JStr :=
  match up with
  | .error e => .error e
  | .ok r =>
    let t := (extractText r).getD []
    .ok (if t.isEmpty then originalPrompt else t)

/-- `convertToVideoPrompt` in same-origin proxy mode. -/
def convertToVideoPrompt_proxy (originalPrompt : JStr)
    (settings : Option JStr) (up : Upstream) : Except JStr JStr :=
  if respOk (handleVideoPrompt (videoBody originalPrompt settings)
      up).resp.status then
    match (handleVideoPrompt (videoBody originalPrompt settings)
        up).resp.body with
    | .video v => .ok v
    | _ => .ok []
  else .error (errOr (handleVideoPrompt (videoBody originalPrompt settings)
    up).resp.body ("Video prompt conversion failed").data)

/-- `sendChatMessage` in direct-gateway mode: builds the contents itself
(not modelled, as no stated property observes it) and returns the extracted
candidate text, empty when absent. -/
def sendChatMessage_gw (history : List HistEntry) (newMessage : JStr)
    (attachments : Option (List Attachment)) (up : Upstream) :
    Except JStr JStr :=
  match up with
  | .error e => .error e
  | .ok r => .ok ((extractText r).getD [])

/-- `sendChatMessage` in same-origin proxy mode. -/
def sendChatMessage_proxy (history : List HistEntry) (newMessage : JStr)
    (attachments : Option (List Attachment)) (up : Upstream) :
    Except JStr JStr :=
  if respOk (handleChat (chatBody history (some newMessage) attachments)
      up).resp.status then
    match (handleChat (chatBody history (some newMessage) attachments)
        up).resp.body with
    | .chat t => .ok t
    | _ => .ok []
  else .error (errOr (handleChat (chatBody history (some newMessage)
    attachments) up).resp.body ("Chat request failed").data)

/-- The diagnostic object returned by `getApiKeyInfo` in either mode. -/
structure KeyInfo where
  status : JStr
  length : Nat
  preview : JStr
  message : JStr
  hasWhitespace : Option Bool := none
deriving DecidableEq

/-- `getApiKeyInfo` in direct-gateway mode: issues a one-token ping through
the gateway base URL and reports reachability; it never sees the
credential. -/
def getApiKeyInfo_gw (up : Upstream) : KeyInfo :=
  match up with
  | .ok r =>
    if ((extractText r).getD []).isEmpty then
      ⟨("invalid_format").data, 0, ("N/A").data,
        ("Gateway response empty").data, none⟩
    else
      ⟨("valid_format").data, 0, ("gateway").data,
        ("Gateway reachable").data, none⟩
  | .error e =>
    ⟨("missing").data, 0, ("N/A").data,
      (if e.isEmpty then ("Gateway unreachable").data else e), none⟩

/-- `getApiKeyInfo` in same-origin proxy mode: GET `/health` on the gateway
and return its JSON; the catch branch (unreachable here, the health route
always replies 200) maps to the static connection-error object. -/
def getApiKeyInfo_proxy (apiKey : Option JStr) : KeyInfo :=
  if respOk (handleHealth apiKey).status then
    match (handleHealth apiKey).body with
    | .health s l p hw m => ⟨s, l, p, m, hw⟩
    | _ => ⟨("error").data, 0, ("N/A").data,
        ("Unable to connect to API").data, none⟩
  else
    ⟨("error").data, 0, ("N/A").data, ("Unable to connect to API").data, none⟩

/-! ## `generateId` (`idService.ts`) -/

/-- The ambient crypto capabilities `generateId` probes.
`randomUUID`, when available, is the platform's `crypto.randomUUID`;
modelled from the Web Crypto specification, it returns a non-empty
(36-character) UUID string, so its results carry a non-emptiness proof.
`getRandomValues`, when available, fills the 16-byte array with the given
bytes. `now36` and `rand36` are `Date.now().toString(36)` and
`Math.random().toString(36).slice(2, 10)` of the final fallback. -/
structure CryptoEnv where
  randomUUID : Option { s : JStr // s ≠ [] } := none
  getRandomValues : Option (Fin 16 → Fin 256) := none
  now36 : JStr := []
  rand36 : JStr := []

/-- `b.toString(16).padStart(2, '0')` for a byte value: two lowercase hex
digits. -/
def hexDigit (n : Nat) : Char :=
  if n < 10 then Char.ofNat (48 + n) else Char.ofNat (87 + n)

/-- The two hex digits of one byte. -/
def hexPair (b : Nat) : List Char :=
  [hexDigit (b / 16 % 16), hexDigit (b % 16)]

/-- The version/variant masking `generateId` applies to bytes 6 and 8. -/
def maskBytes (b : Fin 16 → Nat) : Fin 16 → Nat := fun i =>
  if i.val = 6 then (b i &&& 15) ||| 64
  else if i.val = 8 then (b i &&& 63) ||| 128
  else b i

/-- The grouped hex rendering of the 16 masked bytes:
`hex.slice(0,4) - hex.slice(4,6) - hex.slice(6,8) - hex.slice(8,10) -
hex.slice(10)`. -/
def uuidFrom (bytes : Fin 16 → Nat) : JStr :=
  let m := maskBytes bytes
  hexPair (m 0) ++ hexPair (m 1) ++ hexPair (m 2) ++ hexPair (m 3) ++
  ['-'] ++ hexPair (m 4) ++ hexPair (m 5) ++
  ['-'] ++ hexPair (m 6) ++ hexPair (m 7) ++
  ['-'] ++ hexPair (m 8) ++ hexPair (m 9) ++
  ['-'] ++ hexPair (m 10) ++ hexPair (m 11) ++ hexPair (m 12) ++
  hexPair (m 13) ++ hexPair (m 14) ++ hexPair (m 15)

/-- `generateId` of `idService.ts`: prefer `crypto.randomUUID`, then the
`getRandomValues`-based UUIDv4 construction, then the timestamp/random
fallback. -/
def generateId (env : CryptoEnv) : JStr :=
  match env.randomUUID with
  | some u => u.val
  | none =>
    match env.getRandomValues with
    | some bytes => uuidFrom (fun i => (bytes i).val)
    | none => ("id_").data ++ env.now36 ++ ("_").data ++ env.rand36

/-- Concrete two-entry history used to witness C6. -/
def histSample : List HistEntry :=
  [⟨("user").data, ("hi").data, none⟩, ⟨("assistant").data, ("yo").data, none⟩]

/-- A lowercase hexadecimal digit. -/
def isLowerHex (c : Char) : Bool :=
  ('0' ≤ c && c ≤ '9') || ('a' ≤ c && c ≤ 'f')

/-- A concrete crypto environment for the `getRandomValues` branch. -/
def envGRV : CryptoEnv :=
  { randomUUID := none, getRandomValues := some (fun _ => (0 : Fin 256)),
    now36 := [], rand36 := [] }

/-- Alignment of the observable outcome of one client operation across the
two modes: equal values on success, and failure exactly together (the
thrown messages differ between the modes). -/
def exceptAligned (a b : Except JStr JStr) : Prop :=
  match a, b with
  | .ok x, .ok y => x = y
  | .error _, .error _ => True
  | _, _ => False

/-! ## Theorems -/

theorem grpOk_iff (l : JStr) :
    grpOk l = true ↔ l ≠ [] ∧ ∀ c ∈ l, isLineTerm c = false := by
  cases l with
  | nil => simp [grpOk]
  | cons a t => simp [grpOk, List.all_eq_true]

theorem sepHere_sound {l g1 g2 : JStr} (h : sepHere l = some (g1, g2)) :
    g1 = [] ∧ l = sepB64 ++ g2 ∧ g2 ≠ [] ∧ ∀ c ∈ g2, isLineTerm c = false := by
  unfold sepHere at h
  by_cases hc : (l.take 8 = sepB64 && grpOk (l.drop 8)) = true
  · rw [if_pos hc] at h
    simp only [Option.some.injEq, Prod.mk.injEq] at h
    obtain ⟨hg1, hg2⟩ := h
    simp only [Bool.and_eq_true, decide_eq_true_eq] at hc
    obtain ⟨htake, hgrp⟩ := hc
    rw [hg2] at hgrp
    obtain ⟨hne, hterm⟩ := (grpOk_iff g2).mp hgrp
    refine ⟨hg1.symm, ?_, hne, hterm⟩
    conv_lhs => rw [← List.take_append_drop 8 l]
    rw [htake, hg2]
  · rw [if_neg hc] at h
    exact absurd h (by simp)

theorem sepHere_complete {g2 : JStr} (h2 : g2 ≠ [])
    (h3 : ∀ c ∈ g2, isLineTerm c = false) :
    sepHere (sepB64 ++ g2) = some ([], g2) := by
  have hlen : sepB64.length = 8 := by decide
  have htake : (sepB64 ++ g2).take 8 = sepB64 := by
    rw [← hlen]; exact List.take_left _ _
  have hdrop : (sepB64 ++ g2).drop 8 = g2 := by
    rw [← hlen]; exact List.drop_left _ _
  have hgrp : grpOk g2 = true := (grpOk_iff g2).mpr ⟨h2, h3⟩
  unfold sepHere
  rw [htake, hdrop]
  simp [hgrp]

theorem matchTail_sound {l g1 g2 : JStr} (h : matchTail l = some (g1, g2)) :
    l = g1 ++ sepB64 ++ g2 ∧ (∀ c ∈ g1, isLineTerm c = false) ∧
    g2 ≠ [] ∧ (∀ c ∈ g2, isLineTerm c = false) := by
  induction l generalizing g1 g2 with
  | nil => simp [matchTail] at h
  | cons c rs ih =>
    simp only [matchTail] at h
    by_cases hlt : isLineTerm c = true
    · rw [if_pos hlt] at h
      obtain ⟨hg1, he, hne, hterm⟩ := sepHere_sound h
      subst hg1
      exact ⟨by simpa using he, by simp, hne, hterm⟩
    · rw [if_neg hlt] at h
      cases hm : matchTail rs with
      | some p =>
        rw [hm] at h
        simp only [Option.some.injEq, Prod.mk.injEq] at h
        obtain ⟨h1, h2⟩ := h
        obtain ⟨he, hg1, hne, hg2⟩ :=
          ih (show matchTail rs = some (p.1, p.2) by rw [hm])
        subst h2
        rw [← h1]
        refine ⟨by simp [he], ?_, hne, hg2⟩
        intro x hx
        rcases List.mem_cons.mp hx with hx | hx
        · subst hx; exact Bool.not_eq_true _ ▸ hlt
        · exact hg1 x hx
      | none =>
        rw [hm] at h
        simp only at h
        obtain ⟨hg1, he, hne, hterm⟩ := sepHere_sound h
        subst hg1
        exact ⟨by simpa using he, by simp, hne, hterm⟩

theorem matchTail_cons (c : Char) (rs : JStr) :
    matchTail (c :: rs) =
      if isLineTerm c then sepHere (c :: rs)
      else
        match matchTail rs with
        | some p => some (c :: p.1, p.2)
        | none => sepHere (c :: rs) := rfl

theorem matchTail_complete {g1 g2 : JStr}
    (h1 : ∀ c ∈ g1, isLineTerm c = false) (h2 : g2 ≠ [])
    (h3 : ∀ c ∈ g2, isLineTerm c = false) :
    (matchTail (g1 ++ sepB64 ++ g2)).isSome := by
  induction g1 with
  | nil =>
    have hsep : sepB64 = ';' :: ("base64,").data := by decide
    have hcons : sepB64 ++ g2 = ';' :: (("base64,").data ++ g2) := by
      rw [hsep, List.cons_append]
    rw [List.nil_append, hcons, matchTail_cons]
    rw [if_neg (by decide : ¬(isLineTerm ';' = true))]
    cases hm : matchTail (("base64,").data ++ g2) with
    | some p =>
      change (some (';' :: p.1, p.2)).isSome = true
      rfl
    | none =>
      change (sepHere (';' :: (("base64,").data ++ g2))).isSome = true
      rw [← hcons, sepHere_complete h2 h3]
      rfl
  | cons a g1' ih =>
    have ha : isLineTerm a = false := h1 a (List.mem_cons_self a g1')
    have ih' := ih (fun c hc => h1 c (List.mem_cons_of_mem a hc))
    rw [Option.isSome_iff_exists] at ih'
    obtain ⟨p, hp⟩ := ih'
    have hre : (a :: g1') ++ sepB64 ++ g2 = a :: (g1' ++ sepB64 ++ g2) := by
      simp
    rw [hre, matchTail_cons, if_neg (by simp [ha]), hp]
    simp

theorem matchTail_pos {c : Char} {m' g2 : JStr}
    (hc : isLineTerm c = false)
    (h1 : ∀ x ∈ m', isLineTerm x = false) (h2 : g2 ≠ [])
    (h3 : ∀ x ∈ g2, isLineTerm x = false) :
    ∃ p : JStr × JStr,
      matchTail (c :: (m' ++ sepB64 ++ g2)) = some p ∧ p.1 ≠ [] := by
  have hs := matchTail_complete h1 h2 h3
  rw [Option.isSome_iff_exists] at hs
  obtain ⟨q, hq⟩ := hs
  refine ⟨(c :: q.1, q.2), ?_, by simp⟩
  rw [matchTail_cons, if_neg (by simp [hc]), hq]

/-- The search of `matchDataUri` succeeds exactly on the strings satisfying
the data-URI pattern. -/
theorem matchDataUri_isSome_iff (s : JStr) :
    (matchDataUri s).isSome ↔ IsDataUri s := by
  constructor
  · intro h
    rw [Option.isSome_iff_exists] at h
    obtain ⟨⟨m, d⟩, hmd⟩ := h
    unfold matchDataUri at hmd
    by_cases htake : s.take 5 = dataPfx
    · rw [if_pos htake] at hmd
      cases hm : matchTail (s.drop 5) with
      | some p =>
        obtain ⟨g1, g2⟩ := p
        rw [hm] at hmd
        simp only at hmd
        by_cases hg1 : g1.isEmpty = true
        · rw [if_pos hg1] at hmd
          exact absurd hmd (by simp)
        · rw [if_neg hg1] at hmd
          simp only [Option.some.injEq, Prod.mk.injEq] at hmd
          obtain ⟨he1, he2⟩ := hmd
          subst he1; subst he2
          obtain ⟨he, hgm, hg2ne, hg2⟩ := matchTail_sound hm
          refine ⟨g1, g2, ?_, by simpa using hg1, hg2ne,
            fun c hc => by simp [hgm c hc], fun c hc => by simp [hg2 c hc]⟩
          conv_lhs => rw [← List.take_append_drop 5 s]
          rw [htake, he]
          simp
      | none =>
        rw [hm] at hmd
        exact absurd hmd (by simp)
    · rw [if_neg htake] at hmd
      exact absurd hmd (by simp)
  · rintro ⟨m, d, he, hmne, hdne, hm, hd⟩
    subst he
    unfold matchDataUri
    have hlen : dataPfx.length = 5 := by decide
    have hassoc : dataPfx ++ m ++ sepB64 ++ d = dataPfx ++ (m ++ sepB64 ++ d) := by
      simp
    rw [hassoc]
    have htake : (dataPfx ++ (m ++ sepB64 ++ d)).take 5 = dataPfx := by
      rw [← hlen]; exact List.take_left _ _
    have hdrop : (dataPfx ++ (m ++ sepB64 ++ d)).drop 5 = m ++ sepB64 ++ d := by
      rw [← hlen]; exact List.drop_left _ _
    rw [if_pos htake, hdrop]
    cases m with
    | nil => exact absurd rfl hmne
    | cons a m' =>
      have ha : isLineTerm a = false := by
        simpa using hm a (List.mem_cons_self a m')
      have hm' : ∀ x ∈ m', isLineTerm x = false :=
        fun x hx => by simpa using hm x (List.mem_cons_of_mem a hx)
      have hd' : ∀ x ∈ d, isLineTerm x = false :=
        fun x hx => by simpa using hd x hx
      obtain ⟨p, hp, hpne⟩ := matchTail_pos ha hm' hdne hd'
      have hre : (a :: m') ++ sepB64 ++ d = a :: (m' ++ sepB64 ++ d) := by
        simp
      rw [hre, hp]
      simp [hpne]

/-- Any successful match splits the string exactly at the pattern
boundaries, with both groups non-empty. -/
theorem matchDataUri_split {s m d : JStr}
    (h : matchDataUri s = some (m, d)) :
    s = dataPfx ++ m ++ sepB64 ++ d ∧ m ≠ [] ∧ d ≠ [] := by
  unfold matchDataUri at h
  by_cases htake : s.take 5 = dataPfx
  · rw [if_pos htake] at h
    cases hm : matchTail (s.drop 5) with
    | some p =>
      obtain ⟨g1, g2⟩ := p
      rw [hm] at h
      simp only at h
      by_cases hg1 : g1.isEmpty = true
      · rw [if_pos hg1] at h
        exact absurd h (by simp)
      · rw [if_neg hg1] at h
        simp only [Option.some.injEq, Prod.mk.injEq] at h
        obtain ⟨he1, he2⟩ := h
        subst he1; subst he2
        obtain ⟨he, _, hg2ne, _⟩ := matchTail_sound hm
        refine ⟨?_, by simpa using hg1, hg2ne⟩
        conv_lhs => rw [← List.take_append_drop 5 s]
        rw [htake, he]
        simp
    | none =>
      rw [hm] at h
      exact absurd h (by simp)
  · rw [if_neg htake] at h
    exact absurd h (by simp)

/-! ## Helper lemmas -/

theorem isFalsy_some_eq_false {s : JStr} (h : s ≠ []) :
    isFalsy (some s) = false := by
  cases s with
  | nil => exact absurd rfl h
  | cons a t => rfl

theorem take_ne_nil {s : JStr} (h : s ≠ []) {n : Nat} (hn : n ≠ 0) :
    s.take n ≠ [] := by
  cases s with
  | nil => exact absurd rfl h
  | cons a t =>
    cases n with
    | zero => exact absurd rfl hn
    | succ n => simp

theorem fallbackTitle_ne_nil {s : JStr} (h : s ≠ []) :
    fallbackTitle s ≠ [] := by
  unfold fallbackTitle
  intro hc
  exact take_ne_nil h (by norm_num) (List.append_eq_nil.mp hc).1

/-! ## Claim theorems -/

/-- C2: for every request to classify, generate-image, video-prompt, or chat
whose body is missing the required field (`input` / `prompt` / both
`message` and `attachments` absent or empty), the gateway returns a
400-status result and makes no outbound upstream call. -/
theorem c2_missing_field_400_no_call (b : ReqBody) (up : Upstream)
    (parse : ParseOracle) :
    (isFalsy b.input = true →
      (handleClassify b up parse).resp.status = 400 ∧
      (handleClassify b up parse).calls = []) ∧
    (isFalsy b.prompt = true →
      (handleGenerateImage b up).resp.status = 400 ∧
      (handleGenerateImage b up).calls = []) ∧
    (chatInvalid b = true →
      (handleChat b up).resp.status = 400 ∧
      (handleChat b up).calls = []) ∧
    (isFalsy b.prompt = true →
      (handleVideoPrompt b up).resp.status = 400 ∧
      (handleVideoPrompt b up).calls = []) := by
  refine ⟨fun h => ?_, fun h => ?_, fun h => ?_, fun h => ?_⟩ <;>
    simp [handleClassify, handleGenerateImage, handleChat, handleVideoPrompt,
      h, errorResponse]

theorem c2_missing_field_400_no_call_witness :
    isFalsy (({} : ReqBody)).input = true ∧
    (handleClassify {} (.error ("e").data) (fun _ => none)).resp.status = 400 ∧
    (handleClassify {} (.error ("e").data) (fun _ => none)).calls = [] := by
  refine ⟨by decide, ?_⟩
  exact (c2_missing_field_400_no_call {} (.error ("e").data)
    (fun _ => none)).1 (by decide)

/-- C3: for every non-empty input and every upstream and parse outcome, the
classify route replies 200 with a classify triple whose type is IMAGE or
TEXT, never anything else; failures are absorbed, not surfaced. -/
theorem c3_classify_always_triple (b : ReqBody) (up : Upstream)
    (parse : ParseOracle) (h : isFalsy b.input = false) :
    (handleClassify b up parse).resp.status = 200 ∧
    ∃ t ti tg, (handleClassify b up parse).resp.body = .classify t ti tg ∧
      (t = ("IMAGE").data ∨ t = ("TEXT").data) := by
  unfold handleClassify
  rw [if_neg (by simp [h])]
  cases classifySuccess up parse with
  | some parsed =>
    refine ⟨rfl, _, _, _, rfl, ?_⟩
    by_cases ht : parsed.type = some ("IMAGE").data
    · rw [if_pos ht]; exact Or.inl rfl
    · rw [if_neg ht]; exact Or.inr rfl
  | none => exact ⟨rfl, _, _, _, rfl, Or.inr rfl⟩

theorem c3_classify_always_triple_witness :
    isFalsy (ReqBody.input { input := some ("hi").data }) = false ∧
    ((handleClassify { input := some ("hi").data } (.error ("e").data)
        (fun _ => none)).resp.status = 200 ∧
      ∃ t ti tg,
        (handleClassify { input := some ("hi").data } (.error ("e").data)
          (fun _ => none)).resp.body = .classify t ti tg ∧
        (t = ("IMAGE").data ∨ t = ("TEXT").data)) :=
  ⟨by decide, c3_classify_always_triple { input := some ("hi").data }
    (.error ("e").data) (fun _ => none) (by decide)⟩

/-- C4 counterexample: on input "a" (shorter than 15 characters) with a
failing upstream, the fallback title is the input itself, which differs
from the first 15 characters followed by an ellipsis that the claim
states. -/
theorem c4_counterexample :
    (handleClassify { input := some ("a").data }
        (.error ("upstream failure").data) (fun _ => none)).resp.body =
      .classify ("TEXT").data ("a").data [("新提示词").data] ∧
    ("a").data ≠ ("a").data.take 15 ++ ("...").data := by
  exact ⟨by decide, by decide⟩

/-- C4 (amended): for every non-empty input, whenever the upstream call
fails, yields no truthy text part, or yields a text part that does not
parse, both the gateway classify route and the direct-gateway client
return exactly type TEXT, the fallback title (first 15 characters of the
input, with "..." appended exactly when the input is longer than 15
characters), and the singleton placeholder tag list. -/
theorem c4_fallback_exact (input : JStr) (up : Upstream)
    (parse : ParseOracle) (hne : input ≠ [])
    (hfail : classifySuccess up parse = none) :
    (handleClassify { input := some input } up parse).resp =
      ⟨200, .classify ("TEXT").data (fallbackTitle input) fallbackTags⟩ ∧
    classifyPrompt_gw input up parse = clientClassifyFallback input := by
  constructor
  · unfold handleClassify
    rw [if_neg (by simp [isFalsy_some_eq_false hne]), hfail]
    rfl
  · unfold classifyPrompt_gw
    rw [hfail]

theorem c4_fallback_exact_witness :
    (("abcdefghijklmnopqrst").data ≠ ([] : JStr)) ∧
    classifySuccess (.error ("e").data) (fun _ => none) = none ∧
    ((handleClassify { input := some ("abcdefghijklmnopqrst").data }
        (.error ("e").data) (fun _ => none)).resp =
      ⟨200, .classify ("TEXT").data
        (fallbackTitle ("abcdefghijklmnopqrst").data) fallbackTags⟩ ∧
      classifyPrompt_gw ("abcdefghijklmnopqrst").data (.error ("e").data)
          (fun _ => none) =
        clientClassifyFallback ("abcdefghijklmnopqrst").data) :=
  ⟨by decide, by decide,
    c4_fallback_exact ("abcdefghijklmnopqrst").data (.error ("e").data)
      (fun _ => none) (by decide) (by decide)⟩

theorem refImageParts_some (s : JStr) :
    refImageParts (some s) =
      match matchDataUri s with
      | some md => [⟨none, some ⟨md.1, md.2⟩⟩]
      | none => [] := by
  cases s with
  | nil => decide
  | cons a t =>
    unfold refImageParts
    cases m : matchDataUri (a :: t) <;> simp [m]

theorem attachmentParts_singleton (a : Attachment) :
    attachmentParts [a] =
      match matchDataUri a.data with
      | some md => [⟨none, some ⟨md.1, md.2⟩⟩]
      | none => [] := by
  unfold attachmentParts
  cases m : matchDataUri a.data <;> simp [m]

/-- C5: a reference image or attachment string is forwarded as an
inline-data part split exactly at the `data:<mime>;base64,<payload>`
pattern boundaries when it matches (first conjunct: the match succeeds
exactly on pattern instances; second: it returns the split), and
contributes no inline-data part — with the request still proceeding, no
error — when it does not. -/
theorem c5_data_uri_handling :
    (∀ s : JStr, (matchDataUri s).isSome ↔ IsDataUri s) ∧
    (∀ s m d, matchDataUri s = some (m, d) →
      s = dataPfx ++ m ++ sepB64 ++ d ∧ m ≠ [] ∧ d ≠ []) ∧
    (∀ (p s : JStr) (up : Upstream), p ≠ [] →
      ∃ b, (handleGenerateImage (imageBody (some p) (some s)) up).calls = [b] ∧
        b.contents = [⟨none, ⟨some p, none⟩ ::
          (match matchDataUri s with
           | some md => [⟨none, some ⟨md.1, md.2⟩⟩]
           | none => [])⟩]) ∧
    (∀ (a : Attachment) (hist : List HistEntry) (msg : JStr) (up : Upstream),
      ∃ b, (handleChat (chatBody hist (some msg) (some [a])) up).calls = [b] ∧
        b.contents.getLast? = some ⟨some ("user").data, ⟨some msg, none⟩ ::
          (match matchDataUri a.data with
           | some md => [⟨none, some ⟨md.1, md.2⟩⟩]
           | none => [])⟩) := by
  refine ⟨matchDataUri_isSome_iff, fun s m d h => matchDataUri_split h,
    ?_, ?_⟩
  · intro p s up hp
    unfold handleGenerateImage imageBody
    rw [if_neg (by simp [isFalsy_some_eq_false hp])]
    refine ⟨⟨imageModel, [⟨none, ⟨some p, none⟩ :: refImageParts (some s)⟩],
      some { responseModalities := some [("image").data, ("text").data] }⟩,
      ?_, ?_⟩
    · cases up with
      | error e => rfl
      | ok r => cases h : firstInline r <;> simp [h]
    · rw [refImageParts_some]
  · intro a hist msg up
    unfold handleChat
    have hv : chatInvalid (chatBody hist (some msg) (some [a])) = false := by
      simp [chatInvalid, chatBody]
    rw [if_neg (by simp [hv])]
    refine ⟨⟨textModel, (hist.map histTurn) ++
      [currentTurn (chatBody hist (some msg) (some [a]))], none⟩, ?_, ?_⟩
    · cases up <;> rfl
    · rw [List.getLast?_concat]
      unfold currentTurn chatBody
      simp [attachmentParts_singleton]

theorem c5_data_uri_handling_witness :
    ∃ b, (handleGenerateImage (imageBody (some ("x").data)
        (some ("data:image/png;base64,AAA").data))
        (.error ("e").data)).calls = [b] ∧
      b.contents = [⟨none, ⟨some ("x").data, none⟩ ::
        (match matchDataUri ("data:image/png;base64,AAA").data with
         | some md => [⟨none, some ⟨md.1, md.2⟩⟩]
         | none => [])⟩] :=
  c5_data_uri_handling.2.2.1 ("x").data
    ("data:image/png;base64,AAA").data (.error ("e").data) (by decide)

/-- C6: for every history of N entries accepted by the chat route, the
outbound contents hold one turn per entry in order — role "user" for
entries with role "user", role "model" for every other role value — and
exactly one final "user" turn carrying the new message and its
attachments. -/
theorem c6_chat_contents (hist : List HistEntry) (msg : Option JStr)
    (atts : Option (List Attachment)) (up : Upstream)
    (hvalid : chatInvalid (chatBody hist msg atts) = false) :
    ∃ b, (handleChat (chatBody hist msg atts) up).calls = [b] ∧
      b.contents.length = hist.length + 1 ∧
      (∀ i (hi : i < hist.length) (hb : i < b.contents.length),
        b.contents[i] = ⟨some (if (hist[i]).role = ("user").data
            then ("user").data else ("model").data),
          ⟨some (hist[i]).text, none⟩ ::
            attachmentParts ((hist[i]).attachments.getD [])⟩) ∧
      b.contents.getLast? = some ⟨some ("user").data,
        ⟨some (msg.getD []), none⟩ :: attachmentParts (atts.getD [])⟩ := by
  unfold handleChat
  rw [if_neg (by simp [hvalid])]
  refine ⟨⟨textModel, (hist.map histTurn) ++
    [currentTurn (chatBody hist msg atts)], none⟩, ?_, ?_, ?_, ?_⟩
  · cases up <;> rfl
  · simp
  · intro i hi hb
    have hm : i < (hist.map histTurn).length := by simpa using hi
    rw [List.getElem_append_left hm, List.getElem_map]
    rfl
  · rw [List.getLast?_concat]
    rfl

theorem c6_chat_contents_witness :
    chatInvalid (chatBody histSample (some ("hello").data) none) = false ∧
    ∃ b, (handleChat (chatBody histSample (some ("hello").data) none)
        (.error ("e").data)).calls = [b] ∧
      b.contents.length = histSample.length + 1 ∧
      (∀ i (hi : i < histSample.length) (hb : i < b.contents.length),
        b.contents[i] = ⟨some (if (histSample[i]).role = ("user").data
            then ("user").data else ("model").data),
          ⟨some (histSample[i]).text, none⟩ ::
            attachmentParts ((histSample[i]).attachments.getD [])⟩) ∧
      b.contents.getLast? = some ⟨some ("user").data,
        ⟨some ((some ("hello").data).getD []), none⟩ ::
          attachmentParts ((none : Option (List Attachment)).getD [])⟩ :=
  ⟨by decide, c6_chat_contents histSample (some ("hello").data) none
    (.error ("e").data) (by decide)⟩

/-- C7: the health route always replies 200 (never an error status); an
unset credential yields status "missing"; a set credential lacking the
fixed 4-character prefix or containing whitespace yields "invalid_format",
any other yields "valid_format", and in both of the latter cases the
preview is exactly the first 4 characters, "...", and the last 4
characters of the credential. -/
theorem c7_health_route (k : Option JStr) :
    (handleHealth k).status = 200 ∧
    (isFalsy k = true → (handleHealth k).body =
      .health ("missing").data 0 ("N/A").data none
        ("API Key is not configured").data) ∧
    (∀ s, k = some s → s ≠ [] →
      ((s.take 4 ≠ ("AIza").data ∨ s.any jsWhitespace = true) →
        ∃ hw m, (handleHealth k).body =
          .health ("invalid_format").data s.length
            (s.take 4 ++ ("...").data ++ s.drop (s.length - 4)) hw m) ∧
      ((s.take 4 = ("AIza").data ∧ s.any jsWhitespace = false) →
        ∃ hw m, (handleHealth k).body =
          .health ("valid_format").data s.length
            (s.take 4 ++ ("...").data ++ s.drop (s.length - 4)) hw m)) := by
  refine ⟨?_, ?_, ?_⟩
  · unfold handleHealth
    split <;> rfl
  · intro h
    unfold handleHealth
    rw [if_pos h]
  · intro s hk hs
    subst hk
    unfold handleHealth
    rw [if_neg (by simp [isFalsy_some_eq_false hs])]
    simp only [Option.getD_some]
    constructor
    · intro hbad
      refine ⟨some (s.any jsWhitespace),
        (if s.take 4 = ("AIza").data then ("API Key format looks valid").data
         else ("API Key format may be invalid").data), ?_⟩
      rw [if_neg ?_]
      rintro ⟨h1, h2⟩
      rcases hbad with hb | hb
      · exact hb h1
      · exact h2 hb
    · rintro ⟨h1, h2⟩
      refine ⟨some (s.any jsWhitespace),
        (if s.take 4 = ("AIza").data then ("API Key format looks valid").data
         else ("API Key format may be invalid").data), ?_⟩
      rw [if_pos ⟨h1, by simp [h2]⟩]

theorem c7_health_route_witness :
    ((handleHealth (some ("AIza GOOD").data)).status = 200 ∧
      (("AIza GOOD").data.take 4 ≠ ("AIza").data ∨
        ("AIza GOOD").data.any jsWhitespace = true) ∧
      ∃ hw m, (handleHealth (some ("AIza GOOD").data)).body =
        .health ("invalid_format").data ("AIza GOOD").data.length
          (("AIza GOOD").data.take 4 ++ ("...").data ++
            ("AIza GOOD").data.drop (("AIza GOOD").data.length - 4)) hw m) ∧
    (∃ hw m, (handleHealth (some ("AIzaGOODKEY9").data)).body =
      .health ("valid_format").data ("AIzaGOODKEY9").data.length
        (("AIzaGOODKEY9").data.take 4 ++ ("...").data ++
          ("AIzaGOODKEY9").data.drop
            (("AIzaGOODKEY9").data.length - 4)) hw m) :=
  ⟨⟨(c7_health_route (some ("AIza GOOD").data)).1, Or.inr (by decide),
    ((c7_health_route (some ("AIza GOOD").data)).2.2 _ rfl (by decide)).1
      (Or.inr (by decide))⟩,
    ((c7_health_route (some ("AIzaGOODKEY9").data)).2.2 _ rfl (by decide)).2
      ⟨by decide, by decide⟩⟩

/-- C9: for a non-empty prompt, the video-prompt route replies 200 echoing
the original prompt when the upstream call succeeds with an empty (or
absent) text part, and replies 500 with an error body — carrying the
failure message, not the prompt — when the upstream call fails. -/
theorem c9_video_prompt (b : ReqBody) (hp : isFalsy b.prompt = false) :
    (∀ r : GenResult, ((extractText r).getD []).isEmpty = true →
      (handleVideoPrompt b (.ok r)).resp =
        ⟨200, .video (b.prompt.getD [])⟩) ∧
    (∀ e : JStr, (handleVideoPrompt b (.error e)).resp =
      ⟨500, .error (("Video prompt conversion failed: ").data ++ e)⟩ ∧
      ∀ v, (handleVideoPrompt b (.error e)).resp.body ≠ .video v) := by
  constructor
  · intro r hr
    unfold handleVideoPrompt
    rw [if_neg (by simp [hp])]
    simp only [hr, if_true]
  · intro e
    unfold handleVideoPrompt
    rw [if_neg (by simp [hp])]
    exact ⟨rfl, by simp [errorResponse]⟩

theorem c9_video_prompt_witness :
    isFalsy (ReqBody.prompt { prompt := some ("p").data }) = false ∧
    (((extractText ⟨none⟩).getD []).isEmpty = true ∧
      (handleVideoPrompt { prompt := some ("p").data } (.ok ⟨none⟩)).resp =
        ⟨200, .video (({ prompt := some ("p").data } : ReqBody).prompt.getD [])⟩) ∧
    (handleVideoPrompt { prompt := some ("p").data }
        (.error ("boom").data)).resp =
      ⟨500, .error (("Video prompt conversion failed: ").data ++
        ("boom").data)⟩ :=
  ⟨by decide,
    ⟨by decide, (c9_video_prompt { prompt := some ("p").data }
      (by decide)).1 ⟨none⟩ (by decide)⟩,
    ((c9_video_prompt { prompt := some ("p").data }
      (by decide)).2 ("boom").data).1⟩

/-- C8 counterexample: a POST to the health segment — a known segment with
the wrong method — does not return 405: the dispatch switch has no health
case, so it falls through to the unknown-route 404 (with the credential
configured and a parsable body). -/
theorem c8_counterexample :
    (onRequest ("POST").data ("health").data (some ("AIzaXYZW").data)
        (some {}) (.error ("e").data) (fun _ => none)).resp.status = 404 ∧
    (404 : Nat) ≠ 405 := by
  exact ⟨by decide, by decide⟩

theorem onRequest_eq_dispatch {method path : JStr} {apiKey : Option JStr}
    {rawBody : Option ReqBody} {b : ReqBody} (up : Upstream)
    (parse : ParseOracle)
    (hopt : method ≠ ("OPTIONS").data)
    (hnoth : ¬(path = ("health").data ∧ method = ("GET").data))
    (hkey : isFalsy apiKey = false)
    (hb : (if method = ("POST").data then rawBody else some {}) = some b) :
    onRequest method path apiKey rawBody up parse =
      dispatch method path b up parse := by
  unfold onRequest
  rw [if_neg hopt, if_neg hnoth, if_neg (by simp [hkey]), hb]

/-- C8 (amended): an OPTIONS request returns 204 with no body and no
routing, credential check, body parsing, or outbound call; for non-OPTIONS
requests, provided the credential is configured and — for POST — the body
parses as JSON: a path segment other than classify, generate-image, chat,
video-prompt (including health with a non-GET method) yields 404, and a
non-POST request to one of those four POST segments yields 405. -/
theorem c8_routing (method path : JStr) (apiKey : Option JStr)
    (rawBody : Option ReqBody) (up : Upstream) (parse : ParseOracle) :
    (onRequest ("OPTIONS").data path apiKey rawBody up parse =
      ⟨⟨204, .empty⟩, []⟩) ∧
    (method ≠ ("OPTIONS").data → isFalsy apiKey = false →
      (method = ("POST").data → rawBody.isSome) →
      ((path ≠ ("classify").data ∧ path ≠ ("generate-image").data ∧
        path ≠ ("chat").data ∧ path ≠ ("video-prompt").data) →
        ¬(path = ("health").data ∧ method = ("GET").data) →
        (onRequest method path apiKey rawBody up parse).resp.status = 404) ∧
      ((path = ("classify").data ∨ path = ("generate-image").data ∨
        path = ("chat").data ∨ path = ("video-prompt").data) →
        method ≠ ("POST").data →
        (onRequest method path apiKey rawBody up parse).resp.status = 405)) := by
  constructor
  · unfold onRequest
    rw [if_pos rfl]
  · intro hopt hkey hbody
    have hsome : ∃ b, (if method = ("POST").data then rawBody
        else some {}) = some b := by
      by_cases hpost : method = ("POST").data
      · rw [if_pos hpost]
        exact Option.isSome_iff_exists.mp (hbody hpost)
      · exact ⟨{}, if_neg hpost⟩
    obtain ⟨b, hb⟩ := hsome
    constructor
    · rintro ⟨hn1, hn2, hn3, hn4⟩ hnoth
      rw [onRequest_eq_dispatch up parse hopt hnoth hkey hb]
      unfold dispatch
      rw [if_neg hn1, if_neg hn2, if_neg hn3, if_neg hn4]
      rfl
    · intro hfour hpost
      have hnoth : ¬(path = ("health").data ∧ method = ("GET").data) := by
        rintro ⟨hh, _⟩
        subst hh
        rcases hfour with h | h | h | h <;> exact absurd h (by decide)
      rw [onRequest_eq_dispatch up parse hopt hnoth hkey hb]
      unfold dispatch
      rcases hfour with h | h | h | h <;> rw [h]
      · rw [if_pos rfl, if_pos hpost]; rfl
      · rw [if_neg (by decide), if_pos rfl, if_pos hpost]; rfl
      · rw [if_neg (by decide), if_neg (by decide), if_pos rfl,
          if_pos hpost]; rfl
      · rw [if_neg (by decide), if_neg (by decide), if_neg (by decide),
          if_pos rfl, if_pos hpost]; rfl

theorem c8_routing_witness :
    (onRequest ("OPTIONS").data ("anything").data none none
      (.error ("e").data) (fun _ => none) = ⟨⟨204, .empty⟩, []⟩) ∧
    (onRequest ("GET").data ("bogus").data (some ("AIzaX").data)
      none (.error ("e").data) (fun _ => none)).resp.status = 404 ∧
    (onRequest ("GET").data ("classify").data (some ("AIzaX").data)
      none (.error ("e").data) (fun _ => none)).resp.status = 405 :=
  ⟨(c8_routing ("GET").data ("anything").data none none
      (.error ("e").data) (fun _ => none)).1,
    ((c8_routing ("GET").data ("bogus").data (some ("AIzaX").data) none
      (.error ("e").data) (fun _ => none)).2 (by decide) (by decide)
      (by intro h; exact absurd h (by decide))).1
      ⟨by decide, by decide, by decide, by decide⟩ (by decide),
    ((c8_routing ("GET").data ("classify").data (some ("AIzaX").data) none
      (.error ("e").data) (fun _ => none)).2 (by decide) (by decide)
      (by intro h; exact absurd h (by decide))).2
      (Or.inl rfl) (by decide)⟩

theorem hexDigit_isLowerHex {n : Nat} (h : n < 16) :
    isLowerHex (hexDigit n) = true := by
  have hall : ∀ m, m < 16 → isLowerHex (hexDigit m) = true := by decide
  exact hall n h

theorem hexPair_isLowerHex (b : Nat) :
    ∀ c ∈ hexPair b, isLowerHex c = true := by
  intro c hc
  rcases List.mem_cons.mp hc with h | hc
  · subst h
    exact hexDigit_isLowerHex (Nat.mod_lt _ (by norm_num))
  · rcases List.mem_cons.mp hc with h | hc
    · subst h
      exact hexDigit_isLowerHex (Nat.mod_lt _ (by norm_num))
    · exact absurd hc (List.not_mem_nil c)

theorem mask6_nibble (x : Nat) :
    hexDigit ((x &&& 15 ||| 64) / 16 % 16) = '4' := by
  have h : x &&& 15 < 16 :=
    lt_of_le_of_lt Nat.and_le_right (by norm_num)
  have hall : ∀ y, y < 16 → hexDigit ((y ||| 64) / 16 % 16) = '4' := by
    decide
  exact hall _ h

theorem mask8_nibble (x : Nat) :
    hexDigit ((x &&& 63 ||| 128) / 16 % 16) = '8' ∨
    hexDigit ((x &&& 63 ||| 128) / 16 % 16) = '9' ∨
    hexDigit ((x &&& 63 ||| 128) / 16 % 16) = 'a' ∨
    hexDigit ((x &&& 63 ||| 128) / 16 % 16) = 'b' := by
  have h : x &&& 63 < 64 :=
    lt_of_le_of_lt Nat.and_le_right (by norm_num)
  have hall : ∀ y, y < 64 → (hexDigit ((y ||| 128) / 16 % 16) = '8' ∨
      hexDigit ((y ||| 128) / 16 % 16) = '9' ∨
      hexDigit ((y ||| 128) / 16 % 16) = 'a' ∨
      hexDigit ((y ||| 128) / 16 % 16) = 'b') := by decide
  exact hall _ h

theorem uuidFrom_ne_nil (b : Fin 16 → Nat) : uuidFrom b ≠ [] := by
  simp [uuidFrom, hexPair]

/-- C10: `generateId` always returns a non-empty string; in the
`getRandomValues` branch, for every choice of the 16 random bytes the
result is 36 characters in 8-4-4-4-12 lowercase-hex groups separated by
dashes, with the character at index 14 equal to "4" and the character at
index 19 among "8", "9", "a", "b". -/
theorem c10_generateId :
    (∀ env : CryptoEnv, generateId env ≠ []) ∧
    (∀ (env : CryptoEnv) (bytes : Fin 16 → Fin 256),
      env.randomUUID = none → env.getRandomValues = some bytes →
      generateId env = uuidFrom (fun i => (bytes i).val)) ∧
    (∀ bytes : Fin 16 → Fin 256,
      (uuidFrom (fun i => (bytes i).val)).length = 36 ∧
      (∃ g1 g2 g3 g4 g5 : JStr,
        uuidFrom (fun i => (bytes i).val) =
          g1 ++ ['-'] ++ g2 ++ ['-'] ++ g3 ++ ['-'] ++ g4 ++ ['-'] ++ g5 ∧
        g1.length = 8 ∧ g2.length = 4 ∧ g3.length = 4 ∧ g4.length = 4 ∧
        g5.length = 12 ∧
        (∀ c, (c ∈ g1 ∨ c ∈ g2 ∨ c ∈ g3 ∨ c ∈ g4 ∨ c ∈ g5) →
          isLowerHex c = true)) ∧
      (uuidFrom (fun i => (bytes i).val))[14]? = some '4' ∧
      (∃ c, (uuidFrom (fun i => (bytes i).val))[19]? = some c ∧
        (c = '8' ∨ c = '9' ∨ c = 'a' ∨ c = 'b'))) := by
  refine ⟨?_, ?_, ?_⟩
  · rintro ⟨ru, grv, n36, r36⟩
    cases ru with
    | some u => exact u.property
    | none =>
      cases grv with
      | some bytes => exact uuidFrom_ne_nil _
      | none => simp [generateId]
  · rintro ⟨ru, grv, n36, r36⟩ bytes h1 h2
    simp only at h1 h2
    subst h1; subst h2
    rfl
  · intro bytes
    set bv : Fin 16 → Nat := fun i => (bytes i).val with hbv
    set m : Fin 16 → Nat := maskBytes bv with hm
    have h6 : m 6 = (bv 6 &&& 15) ||| 64 := by
      rw [hm]; rfl
    have h8 : m 8 = (bv 8 &&& 63) ||| 128 := by
      rw [hm]; rfl
    have hdef : uuidFrom bv =
        hexPair (m 0) ++ hexPair (m 1) ++ hexPair (m 2) ++ hexPair (m 3) ++
        ['-'] ++ hexPair (m 4) ++ hexPair (m 5) ++
        ['-'] ++ hexPair (m 6) ++ hexPair (m 7) ++
        ['-'] ++ hexPair (m 8) ++ hexPair (m 9) ++
        ['-'] ++ hexPair (m 10) ++ hexPair (m 11) ++ hexPair (m 12) ++
        hexPair (m 13) ++ hexPair (m 14) ++ hexPair (m 15) := rfl
    refine ⟨?_, ?_, ?_, ?_⟩
    · rw [hdef]
      simp [hexPair]
    · refine ⟨hexPair (m 0) ++ hexPair (m 1) ++ hexPair (m 2) ++
        hexPair (m 3),
        hexPair (m 4) ++ hexPair (m 5),
        hexPair (m 6) ++ hexPair (m 7),
        hexPair (m 8) ++ hexPair (m 9),
        hexPair (m 10) ++ hexPair (m 11) ++ hexPair (m 12) ++
          hexPair (m 13) ++ hexPair (m 14) ++ hexPair (m 15),
        ?_, by simp [hexPair], by simp [hexPair], by simp [hexPair],
        by simp [hexPair], by simp [hexPair], ?_⟩
      · rw [hdef]
        simp [List.append_assoc]
      · have happ : ∀ {a b : JStr}, (∀ c ∈ a, isLowerHex c = true) →
            (∀ c ∈ b, isLowerHex c = true) →
            ∀ c ∈ a ++ b, isLowerHex c = true := by
          intro a b ha hb c hc
          rcases List.mem_append.mp hc with h | h
          · exact ha c h
          · exact hb c h
        intro c hc
        rcases hc with h | h | h | h | h
        · exact happ (happ (happ (hexPair_isLowerHex (m 0))
            (hexPair_isLowerHex (m 1))) (hexPair_isLowerHex (m 2)))
            (hexPair_isLowerHex (m 3)) c h
        · exact happ (hexPair_isLowerHex (m 4))
            (hexPair_isLowerHex (m 5)) c h
        · exact happ (hexPair_isLowerHex (m 6))
            (hexPair_isLowerHex (m 7)) c h
        · exact happ (hexPair_isLowerHex (m 8))
            (hexPair_isLowerHex (m 9)) c h
        · exact happ (happ (happ (happ (happ (hexPair_isLowerHex (m 10))
            (hexPair_isLowerHex (m 11))) (hexPair_isLowerHex (m 12)))
            (hexPair_isLowerHex (m 13))) (hexPair_isLowerHex (m 14)))
            (hexPair_isLowerHex (m 15)) c h
    · have hsplit : uuidFrom bv =
          (hexPair (m 0) ++ hexPair (m 1) ++ hexPair (m 2) ++
            hexPair (m 3) ++ ['-'] ++ hexPair (m 4) ++ hexPair (m 5) ++
            ['-']) ++
          (hexPair (m 6) ++ hexPair (m 7) ++ ['-'] ++ hexPair (m 8) ++
            hexPair (m 9) ++ ['-'] ++ hexPair (m 10) ++ hexPair (m 11) ++
            hexPair (m 12) ++ hexPair (m 13) ++ hexPair (m 14) ++
            hexPair (m 15)) := by
        rw [hdef]; simp [List.append_assoc]
      have hlen : (hexPair (m 0) ++ hexPair (m 1) ++ hexPair (m 2) ++
          hexPair (m 3) ++ ['-'] ++ hexPair (m 4) ++ hexPair (m 5) ++
          ['-']).length = 14 := by simp [hexPair]
      rw [hsplit, List.getElem?_append_right (by rw [hlen]), hlen]
      have : (hexPair (m 6) ++ hexPair (m 7) ++ ['-'] ++ hexPair (m 8) ++
          hexPair (m 9) ++ ['-'] ++ hexPair (m 10) ++ hexPair (m 11) ++
          hexPair (m 12) ++ hexPair (m 13) ++ hexPair (m 14) ++
          hexPair (m 15))[14 - 14]? = some (hexDigit (m 6 / 16 % 16)) := by
        simp [hexPair]
      rw [this, h6, mask6_nibble]
    · have hsplit : uuidFrom bv =
          (hexPair (m 0) ++ hexPair (m 1) ++ hexPair (m 2) ++
            hexPair (m 3) ++ ['-'] ++ hexPair (m 4) ++ hexPair (m 5) ++
            ['-'] ++ hexPair (m 6) ++ hexPair (m 7) ++ ['-']) ++
          (hexPair (m 8) ++ hexPair (m 9) ++ ['-'] ++ hexPair (m 10) ++
            hexPair (m 11) ++ hexPair (m 12) ++ hexPair (m 13) ++
            hexPair (m 14) ++ hexPair (m 15)) := by
        rw [hdef]; simp [List.append_assoc]
      have hlen : (hexPair (m 0) ++ hexPair (m 1) ++ hexPair (m 2) ++
          hexPair (m 3) ++ ['-'] ++ hexPair (m 4) ++ hexPair (m 5) ++
          ['-'] ++ hexPair (m 6) ++ hexPair (m 7) ++ ['-']).length = 19 := by
        simp [hexPair]
      refine ⟨hexDigit (m 8 / 16 % 16), ?_, ?_⟩
      · rw [hsplit, List.getElem?_append_right (by rw [hlen]), hlen]
        simp [hexPair]
      · rw [h8]
        exact mask8_nibble _

theorem c10_generateId_witness :
    generateId envGRV =
      uuidFrom (fun i => ((fun _ : Fin 16 => (0 : Fin 256)) i).val) ∧
    (uuidFrom (fun i =>
      ((fun _ : Fin 16 => (0 : Fin 256)) i).val))[14]? = some '4' :=
  ⟨c10_generateId.2.1 envGRV (fun _ => 0) rfl rfl,
    (c10_generateId.2.2 (fun _ => 0)).2.2.1⟩

/-- C1 counterexample: `getApiKeyInfo` returns different diagnostics in the
two modes — with the gateway ping succeeding and a configured credential,
direct-gateway mode reports length 0 and preview "gateway" while proxy
mode reports the credential length and its redacted preview. -/
theorem c1_counterexample :
    getApiKeyInfo_gw
        (.ok ⟨some [⟨some ⟨some [⟨some ("x").data, none⟩]⟩⟩]⟩) ≠
      getApiKeyInfo_proxy (some ("AIzaABCDEF").data) := by
  decide

/-- C1 (amended): given the same upstream outcome in both modes, and inputs
satisfying the gateway's validation rules, `classifyPrompt` returns
identical triples in both modes, and `generateImage`,
`convertToVideoPrompt` and `sendChatMessage` return the same value whenever
either mode succeeds and fail together otherwise (with differing error
message texts); `getApiKeyInfo` is excluded — its two modes return
different diagnostics. -/
theorem c1_mode_equivalence (up : Upstream) (parse : ParseOracle) :
    (∀ input : JStr, input ≠ [] →
      classifyPrompt_gw input up parse =
        classifyPrompt_proxy input up parse) ∧
    (∀ (p : JStr) (ref : Option JStr), p ≠ [] →
      exceptAligned (generateImage_gw p ref up)
        (generateImage_proxy p ref up)) ∧
    (∀ (p : JStr) (st : Option JStr), p ≠ [] →
      exceptAligned (convertToVideoPrompt_gw p st up)
        (convertToVideoPrompt_proxy p st up)) ∧
    (∀ (hist : List HistEntry) (msg : JStr)
      (atts : Option (List Attachment)),
      ¬(msg = [] ∧ (atts.getD []).isEmpty = true) →
      exceptAligned (sendChatMessage_gw hist msg atts up)
        (sendChatMessage_proxy hist msg atts up)) := by
  have h200 : respOk 200 := by decide
  have h500 : ¬respOk 500 := by decide
  refine ⟨?_, ?_, ?_, ?_⟩
  · intro input hne
    have hcond : ¬(isFalsy (classifyBody input).input = true) := by
      simp [classifyBody, isFalsy_some_eq_false hne]
    unfold classifyPrompt_gw classifyPrompt_proxy handleClassify
    rw [if_neg hcond]
    cases hs : classifySuccess up parse with
    | some parsed =>
      by_cases hty : parsed.type = some ("IMAGE").data
      · cases hti : parsed.title with
        | some t =>
          by_cases hte : t.isEmpty = true
          · have ht : t = [] := by simpa using hte
            simp [hty, hti, ht, h200, classifyBody]
          · have ht : t ≠ [] := by simpa using hte
            simp [hty, hti, ht, h200, classifyBody]
        | none => simp [hty, hti, h200, classifyBody]
      · cases hti : parsed.title with
        | some t =>
          by_cases hte : t.isEmpty = true
          · have ht : t = [] := by simpa using hte
            simp [hty, hti, ht, h200, classifyBody]
          · have ht : t ≠ [] := by simpa using hte
            simp [hty, hti, ht, h200, classifyBody]
        | none => simp [hty, hti, h200, classifyBody]
    | none =>
      have hft : (fallbackTitle input).isEmpty = false := by
        cases hf : fallbackTitle input with
        | nil => exact absurd hf (fallbackTitle_ne_nil hne)
        | cons a t => rfl
      simp [h200, hft, clientClassifyFallback, classifyBody]
  · intro p ref hp
    have hcond : ¬(isFalsy (imageBody (some p) ref).prompt = true) := by
      simp [imageBody, isFalsy_some_eq_false hp]
    unfold generateImage_gw generateImage_proxy handleGenerateImage
    rw [if_neg hcond]
    cases up with
    | error e => simp [h500, exceptAligned, errorResponse]
    | ok r =>
      cases hf : firstInline r with
      | some d => simp [hf, h200, exceptAligned]
      | none => simp [hf, h500, exceptAligned, errorResponse]
  · intro p st hp
    have hcond : ¬(isFalsy (videoBody p st).prompt = true) := by
      simp [videoBody, isFalsy_some_eq_false hp]
    unfold convertToVideoPrompt_gw convertToVideoPrompt_proxy
      handleVideoPrompt
    rw [if_neg hcond]
    cases up with
    | error e => simp [h500, exceptAligned, errorResponse]
    | ok r => simp [h200, exceptAligned, videoBody]
  · intro hist msg atts hval
    have hinv : chatInvalid (chatBody hist (some msg) atts) = false := by
      unfold chatInvalid chatBody
      by_cases hm : msg = []
      · subst hm
        have ha : (atts.getD []).isEmpty = false := by
          by_cases ha : (atts.getD []).isEmpty = true
          · exact absurd ⟨rfl, ha⟩ hval
          · simpa using ha
        simp [ha]
      · simp [isFalsy_some_eq_false hm]
    have hcond : ¬(chatInvalid (chatBody hist (some msg) atts) = true) := by
      simp [hinv]
    unfold sendChatMessage_gw sendChatMessage_proxy handleChat
    rw [if_neg hcond]
    cases up with
    | error e => simp [h500, exceptAligned, errorResponse]
    | ok r => simp [h200, exceptAligned]

theorem c1_mode_equivalence_witness :
    (("ok").data ≠ ([] : JStr)) ∧
    classifyPrompt_gw ("ok").data (.error ("down").data) (fun _ => none) =
      classifyPrompt_proxy ("ok").data (.error ("down").data)
        (fun _ => none) :=
  ⟨by decide, (c1_mode_equivalence (.error ("down").data)
    (fun _ => none)).1 ("ok").data (by decide)⟩
